import Mathlib

/-! Package `state` of yoke, file `rpc.go`: remote access to a state record.

A shallow embedding of `src/state/rpc.go`.

* Go `error` values are `Option Err` (`none` is `nil`).
* `interface{}` arguments are values of the sum type `Value`.
* An output pointer (`out interface{}`, `reply *string`, ...) is modelled by passing the
  pointed-to value in and handing the value it holds when the function returns back.
* `rpc.Dial` and `client.Call` belong to the Go standard library.  They are parameters
  (`Net`): for every peer state they say how long the operation takes, whether it ever
  returns, and what it yields.  Times are nanoseconds counted from the start of `call`.
* Every function returns, next to its Go results, the trace of operations it (and the
  goroutine it started) performs, and the state of the outside world afterwards.
* Time.  The goroutine of `call` and the timer of its `select` start at the same instant.
  `select` takes the case that becomes ready first; when both become ready at the same
  instant the choice belongs to the scheduler (`Net.pick`).
* A goroutine abandoned by a `call` that returned `Timeout` runs on; the world handed to
  the next operation is the one that goroutine leaves.
-/

namespace Yoke

/-! ## Values, errors, durations -/

/-- Errors produced by the standard library (`rpc.Dial`, `client.Call`).  They are never
identical to one of the two error variables declared in `rpc.go`. -/
inductive NetErr where
  /-- `rpc.Dial` failed (connection refused, unknown host, ...). -/
  | connect (msg : String)
  /-- `client.Call` failed on the connection (`rpc.ErrShutdown`, I/O and decode errors). -/
  | transport (msg : String)
  /-- `client.Call` got an error answer from the peer (`rpc.ServerError`). -/
  | remote (msg : String)
  deriving DecidableEq

/-- The non-nil values of Go type `error` that `rpc.go` can see. -/
inductive Err where
  /-- The value of the variable `Timeout` (`errors.New("Timeout")`). -/
  | timeout
  /-- The value of the variable `NotSupported` (`errors.New("not supported")`). -/
  | notSupported
  /-- An error made by the standard library. -/
  | net (e : NetErr)
  deriving DecidableEq

/-- Go `error`: `none` is `nil`. -/
abbrev error := Option Err

/-- `Timeout = errors.New("Timeout")` (rpc.go line 12). -/
def Timeout : error := some Err.timeout

/-- `NotSupported = errors.New("not supported")` (rpc.go line 13). -/
def NotSupported : error := some Err.notSupported

/-- `Nil struct{}` (rpc.go line 32). -/
structure Nil where
  deriving DecidableEq

/-- The dynamic values passed as `in` / `out` of `call` in rpc.go. -/
inductive Value where
  /-- A `Nil{}`. -/
  | Nil
  /-- A Go `bool`. -/
  | bool (b : Bool)
  /-- A Go `string`. -/
  | str (s : String)
  deriving DecidableEq

/-- Read a `bool` variable; anything that is not a bool leaves the zero value. -/
def Value.asBool : Value → Bool
  | Value.bool b => b
  | _ => false

/-- Read a `string` variable; anything that is not a string leaves the zero value. -/
def Value.asStr : Value → String
  | Value.str s => s
  | _ => ""

/-- `time.Duration`: a signed count of nanoseconds. -/
abbrev Duration := Int

/-- `time.Second`. -/
def Second : Duration := 1000000000

/-! ## The outside world -/

/-- What one `rpc.Dial(network, location)` does. -/
inductive DialOutcome where
  /-- The dial never returns. -/
  | never
  /-- After `after` ns the dial returns an error. -/
  | failed (after : Nat) (e : NetErr)
  /-- After `after` ns the dial returns a client. -/
  | connected (after : Nat)
  deriving DecidableEq

/-- What one `client.Call(method, in, out)` does. -/
inductive InvokeOutcome where
  /-- The peer never answers: `client.Call` never returns and `out` is never written. -/
  | never
  /-- After `wire` ns the answer has been read: `reply`, when present, is stored through
  `out` at that moment.  After `wake` more ns `client.Call` returns `err`. -/
  | done (wire wake : Nat) (reply : Option Value) (err : Option NetErr)
  deriving DecidableEq

/-- The standard library, the network, the peer and the scheduler, as seen from rpc.go.
`σ` is the state of that outside world. -/
structure Net (σ : Type) where
  /-- `rpc.Dial(network, location)`. -/
  dial : σ → String → String → DialOutcome × σ
  /-- `client.Call(method, in, out)` on a client obtained from `dial`. -/
  invoke : σ → String → Value → InvokeOutcome × σ
  /-- The choice `select` makes when both of its cases are ready at the same instant:
  `true` takes `<-res`, `false` takes the timer. -/
  pick : σ → Bool

/-- Operations recorded in a trace. -/
inductive Ev where
  /-- Entry of `call` with its arguments (a ghost event: one per bounded-latency call). -/
  | call (network location : String) (timeout : Duration) (method : String) (input : Value)
  /-- `rpc.Dial(network, location)` is issued. -/
  | dial (network location : String)
  /-- `client.Call(method, in, out)` is issued. -/
  | invoke (method : String) (input : Value)
  /-- A value is sent on `res`. -/
  | send (e : error)
  /-- The deferred `client.Close()` runs. -/
  | close
  /-- `<-time.After(d)` in `Ready`. -/
  | wait (d : Duration)
  deriving DecidableEq

/-- Is the event a `call` entry? -/
def Ev.isCall : Ev → Bool
  | Ev.call _ _ _ _ _ => true
  | _ => false

/-- Is the event a dial? -/
def Ev.isDial : Ev → Bool
  | Ev.dial _ _ => true
  | _ => false

/-- Is the event a close? -/
def Ev.isClose : Ev → Bool
  | Ev.close => true
  | _ => false

/-- Is the event a wait of `Ready`? -/
def Ev.isWait : Ev → Bool
  | Ev.wait _ => true
  | _ => false

/-! ## `call` (rpc.go lines 66-83) -/

/-- One run of the goroutine started by `call` (lines 68-76). -/
structure Attempt (σ : Type) where
  /-- The operations of the goroutine, in program order, over its whole life. -/
  events : List Ev
  /-- The moment at which a value is sent on `res`, and the value; `none` when the
  goroutine never gets that far. -/
  done : Option (Nat × error)
  /-- The moment at which `out` is written, and the value written. -/
  wrote : Option (Nat × Value)
  /-- The outside world after the goroutine. -/
  world : σ

/-- The body of the goroutine of `call`:
```go
client, err := rpc.Dial(network, location)
if err != nil { res <- err; return }
defer client.Close()
res <- client.Call(method, in, out)
```
`res` has capacity 1 and is sent to once, so the send never blocks. -/
def attempt {σ : Type} (net : Net σ) (w : σ) (network location method : String)
    (input : Value) : Attempt σ :=
  match net.dial w network location with
  | (DialOutcome.never, w1) =>
      { events := [Ev.dial network location], done := none, wrote := none, world := w1 }
  | (DialOutcome.failed t e, w1) =>
      { events := [Ev.dial network location, Ev.send (some (Err.net e))]
        done := some (t, some (Err.net e)), wrote := none, world := w1 }
  | (DialOutcome.connected t, w1) =>
      match net.invoke w1 method input with
      | (InvokeOutcome.never, w2) =>
          { events := [Ev.dial network location, Ev.invoke method input]
            done := none, wrote := none, world := w2 }
      | (InvokeOutcome.done wire wake reply err, w2) =>
          { events := [Ev.dial network location, Ev.invoke method input,
                       Ev.send (err.map Err.net), Ev.close]
            done := some (t + wire + wake, err.map Err.net)
            wrote := reply.map (fun v => (t + wire, v))
            world := w2 }

/-- The content of the variable behind `out` at time `now`. -/
def outAt (now : Nat) (wrote : Option (Nat × Value)) (out : Value) : Value :=
  match wrote with
  | some (t, v) => if t ≤ now then v else out
  | none => out

/-- What `call` hands back. -/
structure CallResult (σ : Type) where
  /-- The returned `error`. -/
  err : error
  /-- The content of the variable behind `out` when `call` returns. -/
  out : Value
  /-- The moment at which `call` returns. -/
  returnedAt : Nat
  /-- The `call` entry followed by the operations of the goroutine (over its whole life,
  also those after `call` has returned). -/
  events : List Ev
  /-- The outside world after the goroutine. -/
  world : σ

/-- The moment at which the channel of `time.After(d)` becomes ready: a duration that is
not positive fires at once. -/
def fireAt (timeout : Duration) : Nat := timeout.toNat

/-- `call` (lines 66-83): start the goroutine, then
```go
select {
case err := <-res:           return err
case <-time.After(timeout):  return Timeout
}
```
The case that becomes ready first is taken; when both become ready at the same instant
the scheduler (`net.pick`) chooses. -/
def call {σ : Type} (net : Net σ) (w : σ) (network location : String) (timeout : Duration)
    (method : String) (input : Value) (out : Value) : CallResult σ :=
  let a := attempt net w network location method input
  let events := Ev.call network location timeout method input :: a.events
  match a.done with
  | none =>
      { err := Timeout, out := outAt (fireAt timeout) a.wrote out, returnedAt := fireAt timeout
        events := events, world := a.world }
  | some (t, r) =>
      if t < fireAt timeout ∨ (t = fireAt timeout ∧ net.pick w = true) then
        { err := r, out := outAt t a.wrote out, returnedAt := t, events := events, world := a.world }
      else
        { err := Timeout, out := outAt (fireAt timeout) a.wrote out, returnedAt := fireAt timeout
          events := events, world := a.world }

/-! ## The remote variant (rpc.go lines 22-26, 57-64, 85-130) -/

/-- `remoteState` (lines 22-26). -/
structure remoteState where
  timeout : Duration
  location : String
  network : String
  deriving DecidableEq

/-- `NewRemoteState` (lines 57-64). -/
def NewRemoteState (network location : String) (timeout : Duration) : remoteState :=
  { timeout := timeout, network := network, location := location }

/-- `remoteState.call` (lines 85-87). -/
def remoteState.call {σ : Type} (c : remoteState) (net : Net σ) (w : σ) (method : String)
    (input : Value) (out : Value) : CallResult σ :=
  Yoke.call net w c.network c.location c.timeout method input out

/-- Result of a remote operation that returns a value and an error. -/
structure Got (α : Type) (σ : Type) where
  /-- The returned value. -/
  val : α
  /-- The returned `error`. -/
  err : error
  /-- The operations performed. -/
  events : List Ev
  /-- The outside world afterwards. -/
  world : σ

/-- Result of a remote operation that returns only an error. -/
structure Did (σ : Type) where
  /-- The returned `error`. -/
  err : error
  /-- The operations performed. -/
  events : List Ev
  /-- The outside world afterwards. -/
  world : σ

/-- `remoteState.Ready` (lines 89-93):
```go
for c.call("StateRPC.Ready", Nil{}, &Nil{}) != nil {
	<-time.After(time.Second)
}
```
The loop has no bound, so the embedding takes fuel: one unit per iteration of the loop.
`none` means the loop is still running when the fuel is used up. -/
def remoteState.Ready {σ : Type} (c : remoteState) (net : Net σ) :
    Nat → σ → Option (List Ev × σ)
  | 0, _ => none
  | fuel + 1, w =>
      let r := c.call net w "StateRPC.Ready" Value.Nil Value.Nil
      match r.err with
      | none => some (r.events, r.world)
      | some _ =>
          match remoteState.Ready c net fuel r.world with
          | none => none
          | some (es, w1) => some (r.events ++ Ev.wait Second :: es, w1)

/-- `remoteState.SetSynced` (lines 95-98). -/
def remoteState.SetSynced {σ : Type} (c : remoteState) (net : Net σ) (w : σ)
    (synced : Bool) : Did σ :=
  let out := Value.bool false
  let r := c.call net w "StateRPC.SetSynced" (Value.bool synced) out
  { err := r.err, events := r.events, world := r.world }

/-- `remoteState.HasSynced` (lines 100-104). -/
def remoteState.HasSynced {σ : Type} (c : remoteState) (net : Net σ) (w : σ) :
    Got Bool σ :=
  let synced := Value.bool false
  let r := c.call net w "StateRPC.HasSynced" (Value.bool true) synced
  { val := r.out.asBool, err := r.err, events := r.events, world := r.world }

/-- `remoteState.Location` (lines 106-108). -/
def remoteState.Location (c : remoteState) : String := c.location

/-- `remoteState.GetDataDir` (lines 110-114). -/
def remoteState.GetDataDir {σ : Type} (c : remoteState) (net : Net σ) (w : σ) :
    Got String σ :=
  let dataDir := Value.str ""
  let r := c.call net w "StateRPC.GetDataDir" (Value.str "") dataDir
  { val := r.out.asStr, err := r.err, events := r.events, world := r.world }

/-- `remoteState.GetRole` (lines 116-120). -/
def remoteState.GetRole {σ : Type} (c : remoteState) (net : Net σ) (w : σ) :
    Got String σ :=
  let role := Value.str ""
  let r := c.call net w "StateRPC.GetRole" (Value.str "") role
  { val := r.out.asStr, err := r.err, events := r.events, world := r.world }

/-- `remoteState.GetDBRole` (lines 122-126). -/
def remoteState.GetDBRole {σ : Type} (c : remoteState) (net : Net σ) (w : σ) :
    Got String σ :=
  let role := Value.str ""
  let r := c.call net w "StateRPC.GetDBRole" (Value.str "") role
  { val := r.out.asStr, err := r.err, events := r.events, world := r.world }

/-- `remoteState.SetDBRole` (lines 128-130): `return NotSupported`. -/
def remoteState.SetDBRole {σ : Type} (_c : remoteState) (_net : Net σ) (w : σ)
    (_role : String) : Did σ :=
  { err := NotSupported, events := [], world := w }

/-! ## The server side (rpc.go lines 28-30, 35-54, 132-159) -/

/-- Modelled from the spec: the record type `state`, declared outside rpc.go.  The spec
(section 3, State record) gives its fields as `DataDir: string`, `Role: string`,
`DBRole: string`, `synced: bool`; rpc.go reads `DataDir`, `Role`, `DBRole` and `synced`
and writes `synced`. -/
structure state where
  DataDir : String
  Role : String
  DBRole : String
  synced : Bool
  deriving DecidableEq

/-- `StateRPC` (lines 28-30).  The field is a pointer in Go: a handler that writes through
it hands the updated wrapper back. -/
structure StateRPC where
  state : state
  deriving DecidableEq

/-- What a handler hands back: the wrapper (for the record behind its pointer), the value
behind the reply pointer, and the returned `error`. -/
structure Handled (β : Type) where
  /-- The wrapper after the handler. -/
  wrap : StateRPC
  /-- The value behind the reply pointer after the handler. -/
  reply : β
  /-- The returned `error`. -/
  err : error

/-- `StateRPC.Ready` (lines 132-134). -/
def StateRPC.Ready (wrap : StateRPC) (_a : Nil) (b : Nil) : Handled Nil :=
  { wrap := wrap, reply := b, err := none }

/-- `StateRPC.GetDataDir` (lines 136-139). -/
def StateRPC.GetDataDir (wrap : StateRPC) (_arg : String) (_reply : String) :
    Handled String :=
  { wrap := wrap, reply := wrap.state.DataDir, err := none }

/-- `StateRPC.GetRole` (lines 141-144). -/
def StateRPC.GetRole (wrap : StateRPC) (_arg : String) (_reply : String) : Handled String :=
  { wrap := wrap, reply := wrap.state.Role, err := none }

/-- `StateRPC.GetDBRole` (lines 146-149). -/
def StateRPC.GetDBRole (wrap : StateRPC) (_arg : String) (_reply : String) :
    Handled String :=
  { wrap := wrap, reply := wrap.state.DBRole, err := none }

/-- `StateRPC.HasSynced` (lines 151-154). -/
def StateRPC.HasSynced (wrap : StateRPC) (_arg : Bool) (_reply : Bool) : Handled Bool :=
  { wrap := wrap, reply := wrap.state.synced, err := none }

/-- `StateRPC.SetSynced` (lines 156-159). -/
def StateRPC.SetSynced (wrap : StateRPC) (sync : Bool) (out : Bool) : Handled Bool :=
  { wrap := { wrap with state := { wrap.state with synced := sync } }, reply := out
    err := none }

/-- What the server sends back for a handler result: the reply value when the handler
returned `nil`, otherwise an error answer without a value. -/
def answer {β : Type} (inj : β → Value) (h : Handled β) :
    Option Value × Option NetErr × StateRPC :=
  match h.err with
  | none => (some (inj h.reply), none, h.wrap)
  | some _ => (none, some (NetErr.remote "handler error"), h.wrap)

/-- The service that `ExposeRPCEndpoint` (lines 36-54) registers with `server.Register`:
a request is routed by its method name to the handler of `StateRPC`, with a fresh zero
value behind the reply pointer.  A name that is not registered, or an argument that is
not of the type of the handler, is answered with an error and runs no handler. -/
def dispatch (wrap : StateRPC) (method : String) (input : Value) :
    Option Value × Option NetErr × StateRPC :=
  match input with
  | Value.Nil =>
      if method = "StateRPC.Ready" then
        answer (fun (_ : Nil) => Value.Nil) (wrap.Ready {} {})
      else (none, some (NetErr.remote "rpc: cannot serve request"), wrap)
  | Value.str arg =>
      if method = "StateRPC.GetDataDir" then answer Value.str (wrap.GetDataDir arg "")
      else if method = "StateRPC.GetRole" then answer Value.str (wrap.GetRole arg "")
      else if method = "StateRPC.GetDBRole" then answer Value.str (wrap.GetDBRole arg "")
      else (none, some (NetErr.remote "rpc: cannot serve request"), wrap)
  | Value.bool arg =>
      if method = "StateRPC.HasSynced" then answer Value.bool (wrap.HasSynced arg false)
      else if method = "StateRPC.SetSynced" then answer Value.bool (wrap.SetSynced arg false)
      else (none, some (NetErr.remote "rpc: cannot serve request"), wrap)

/-- A peer that has run `ExposeRPCEndpoint(network, location)` and answers every request,
together with the time its answers take and the choice of the scheduler on a tie. -/
structure Peer where
  /-- The wrapper registered by `ExposeRPCEndpoint`. -/
  wrap : StateRPC
  /-- The endpoint given to `net.Listen`. -/
  network : String
  /-- The endpoint given to `net.Listen`. -/
  location : String
  /-- Time a dial takes. -/
  dialTime : Nat
  /-- Time from the invocation until the answer has been read by the client. -/
  wire : Nat
  /-- Time from then until `client.Call` returns. -/
  wake : Nat
  /-- Choice of `select` on a tie. -/
  pick : Bool

/-- The outside world made of one responsive peer: a dial to its endpoint connects, a
dial to any other endpoint is refused, and an invocation runs `dispatch`. -/
def served : Net Peer where
  dial p network location :=
    if network = p.network ∧ location = p.location then (DialOutcome.connected p.dialTime, p)
    else (DialOutcome.failed p.dialTime (NetErr.connect "connection refused"), p)
  invoke p method input :=
    match dispatch p.wrap method input with
    | (reply, err, wrap) => (InvokeOutcome.done p.wire p.wake reply err, { p with wrap := wrap })
  pick p := p.pick

/-! ## Worlds used to run the code on concrete inputs -/

/-- A world in which every dial connects after 1 ns and no invocation is ever answered. -/
def silent : Net Unit where
  dial _ _ _ := (DialOutcome.connected 1, ())
  invoke _ _ _ := (InvokeOutcome.never, ())
  pick _ := true

/-- A world in which the answer `reply` is read after `wire` ns and `client.Call` returns
`wake` ns later; a dial takes no time. -/
def replying (wire wake : Nat) (reply : Value) : Net Unit where
  dial _ _ _ := (DialOutcome.connected 0, ())
  invoke _ _ _ := (InvokeOutcome.done wire wake (some reply) none, ())
  pick _ := false

/-- A state record used in examples. -/
def exampleState : state :=
  { DataDir := "/var/data", Role := "leader", DBRole := "primary", synced := false }

/-- A responsive peer serving `exampleState` on `tcp`, `127.0.0.1:4400`. -/
def examplePeer : Peer :=
  { wrap := { state := exampleState }, network := "tcp", location := "127.0.0.1:4400"
    dialTime := 1000, wire := 2000, wake := 10, pick := true }

/-- A handle on `examplePeer` with a timeout of two seconds. -/
def exampleRemote : remoteState := NewRemoteState "tcp" "127.0.0.1:4400" 2000000000

/-! ## Auxiliary notions used to state the properties -/

/-- The probe of `Ready`: the call in the condition of its loop (line 90). -/
def probe {σ : Type} (c : remoteState) (net : Net σ) (w : σ) : CallResult σ :=
  c.call net w "StateRPC.Ready" Value.Nil Value.Nil

/-- The outside world met by probe number `i` (counted from 0) of a `Ready` started in
`w`: the world left by the goroutine of the probe before. -/
def worldAt {σ : Type} (c : remoteState) (net : Net σ) : Nat → σ → σ
  | 0, w => w
  | i + 1, w => worldAt c net i (probe c net w).world

/-- The sequence `e, wait 1s, e, wait 1s, ..., e` with `n` waits and `n + 1` times `e`. -/
def alternating (e : Ev) : Nat → List Ev
  | 0 => [e]
  | n + 1 => e :: Ev.wait Second :: alternating e n

/-- Has the goroutine written through `out` by the moment `now`? -/
def Attempt.wroteBy {σ : Type} (a : Attempt σ) (now : Nat) : Bool :=
  match a.wrote with
  | some (t, _) => decide (t ≤ now)
  | none => false

/-- The call of a handle fails, and when it returns nothing has been written through
`out`. -/
def failsUnwritten {σ : Type} (c : remoteState) (net : Net σ) (w : σ) (method : String)
    (input out : Value) : Prop :=
  (c.call net w method input out).err ≠ none ∧
  (attempt net w c.network c.location method input).wroteBy
    (c.call net w method input out).returnedAt = false

/-- An operation with results `err`, `events` and `world` consists of the one call `r`,
entered with the arguments recorded in `entry`: it returns the error of `r`, does what
`r` does and nothing else, and there is one `call` entry and one dial in its trace. -/
def isSingleCall {σ : Type} (err : error) (events : List Ev) (world : σ)
    (r : CallResult σ) (entry : Ev) : Prop :=
  err = r.err ∧ events = r.events ∧ world = r.world ∧
  events.filter Ev.isCall = [entry] ∧ (events.filter Ev.isDial).length = 1

/-- A world whose state counts the dials made so far.  The first dial never returns, the
second is refused, the third connects and its invocation is answered with an error of
the peer, and from the fourth on every dial connects and every invocation succeeds. -/
def moody : Net Nat where
  dial k _ _ :=
    if k = 0 then (DialOutcome.never, k + 1)
    else if k = 1 then (DialOutcome.failed 5 (NetErr.connect "connection refused"), k + 1)
    else (DialOutcome.connected 2, k + 1)
  invoke k _ _ :=
    if k = 3 then (InvokeOutcome.done 3 1 none (some (NetErr.remote "not yet")), k)
    else (InvokeOutcome.done 3 1 (some Value.Nil) none, k)
  pick _ := true

/-! ## Facts about the goroutine of `call` -/

section Lemmas

variable {σ : Type}

theorem attempt_dial_never (net : Net σ) (w w1 : σ) (network location method : String)
    (input : Value) (h : net.dial w network location = (DialOutcome.never, w1)) :
    attempt net w network location method input =
      { events := [Ev.dial network location], done := none, wrote := none, world := w1 } := by
  unfold attempt
  rw [h]

theorem attempt_dial_failed (net : Net σ) (w w1 : σ) (network location method : String)
    (input : Value) (t : Nat) (e : NetErr)
    (h : net.dial w network location = (DialOutcome.failed t e, w1)) :
    attempt net w network location method input =
      { events := [Ev.dial network location, Ev.send (some (Err.net e))]
        done := some (t, some (Err.net e)), wrote := none, world := w1 } := by
  unfold attempt
  rw [h]

theorem attempt_invoke_never (net : Net σ) (w w1 w2 : σ) (network location method : String)
    (input : Value) (t : Nat)
    (h : net.dial w network location = (DialOutcome.connected t, w1))
    (h2 : net.invoke w1 method input = (InvokeOutcome.never, w2)) :
    attempt net w network location method input =
      { events := [Ev.dial network location, Ev.invoke method input]
        done := none, wrote := none, world := w2 } := by
  unfold attempt
  rw [h]
  simp only
  rw [h2]

theorem attempt_invoke_done (net : Net σ) (w w1 w2 : σ) (network location method : String)
    (input : Value) (t wire wake : Nat) (reply : Option Value) (err : Option NetErr)
    (h : net.dial w network location = (DialOutcome.connected t, w1))
    (h2 : net.invoke w1 method input = (InvokeOutcome.done wire wake reply err, w2)) :
    attempt net w network location method input =
      { events := [Ev.dial network location, Ev.invoke method input,
                   Ev.send (err.map Err.net), Ev.close]
        done := some (t + wire + wake, err.map Err.net)
        wrote := reply.map (fun v => (t + wire, v))
        world := w2 } := by
  unfold attempt
  rw [h]
  simp only
  rw [h2]

/-- The four shapes a run of the goroutine can have. -/
theorem attempt_shape (net : Net σ) (w : σ) (network location method : String)
    (input : Value) :
    (∃ w1, net.dial w network location = (DialOutcome.never, w1)) ∨
    (∃ t e w1, net.dial w network location = (DialOutcome.failed t e, w1)) ∨
    (∃ t w1 w2, net.dial w network location = (DialOutcome.connected t, w1) ∧
      net.invoke w1 method input = (InvokeOutcome.never, w2)) ∨
    (∃ t w1 wire wake reply err w2,
      net.dial w network location = (DialOutcome.connected t, w1) ∧
      net.invoke w1 method input = (InvokeOutcome.done wire wake reply err, w2)) := by
  rcases hd : net.dial w network location with ⟨d, w1⟩
  cases d with
  | never => exact Or.inl ⟨w1, rfl⟩
  | failed t e => exact Or.inr (Or.inl ⟨t, e, w1, rfl⟩)
  | connected t =>
    rcases hi : net.invoke w1 method input with ⟨o, w2⟩
    cases o with
    | never => exact Or.inr (Or.inr (Or.inl ⟨t, w1, w2, rfl, hi⟩))
    | done wire wake reply err =>
      exact Or.inr (Or.inr (Or.inr ⟨t, w1, wire, wake, reply, err, w2, rfl, hi⟩))

/-- The value the goroutine sends on `res` is `nil` or an error of the standard library:
it is never one of the two error variables of rpc.go. -/
theorem attempt_done_form (net : Net σ) (w : σ) (network location method : String)
    (input : Value) (t : Nat) (r : error)
    (h : (attempt net w network location method input).done = some (t, r)) :
    r = none ∨ ∃ e, r = some (Err.net e) := by
  rcases attempt_shape net w network location method input with
    ⟨w1, hd⟩ | ⟨t1, e, w1, hd⟩ | ⟨t1, w1, w2, hd, hi⟩ | ⟨t1, w1, wire, wake, reply, err, w2, hd, hi⟩
  · rw [attempt_dial_never net w w1 network location method input hd] at h
    simp at h
  · rw [attempt_dial_failed net w w1 network location method input t1 e hd] at h
    simp at h
    exact Or.inr ⟨e, h.2.symm⟩
  · rw [attempt_invoke_never net w w1 w2 network location method input t1 hd hi] at h
    simp at h
  · rw [attempt_invoke_done net w w1 w2 network location method input t1 wire wake reply err
      hd hi] at h
    simp at h
    cases err with
    | none => exact Or.inl (by simpa using h.2.symm)
    | some e => exact Or.inr ⟨e, by simpa using h.2.symm⟩

theorem attempt_done_ne_Timeout (net : Net σ) (w : σ) (network location method : String)
    (input : Value) (t : Nat) (r : error)
    (h : (attempt net w network location method input).done = some (t, r)) :
    r ≠ Timeout := by
  rcases attempt_done_form net w network location method input t r h with h1 | ⟨e, h1⟩
  · simp [h1, Timeout]
  · simp [h1, Timeout]

/-- The trace of `call` is its entry followed by the trace of the goroutine, and the
world it leaves is the one the goroutine leaves, whatever the timeout. -/
theorem call_events (net : Net σ) (w : σ) (network location : String) (timeout : Duration)
    (method : String) (input out : Value) :
    (call net w network location timeout method input out).events =
      Ev.call network location timeout method input ::
        (attempt net w network location method input).events ∧
    (call net w network location timeout method input out).world =
      (attempt net w network location method input).world := by
  unfold call
  simp only
  split
  · exact ⟨rfl, rfl⟩
  · split <;> exact ⟨rfl, rfl⟩

/-- When the goroutine sends before the timer fires, `call` returns what was sent. -/
theorem call_of_done_lt (net : Net σ) (w : σ) (network location : String)
    (timeout : Duration) (method : String) (input out : Value) (t : Nat) (r : error)
    (hdone : (attempt net w network location method input).done = some (t, r))
    (hlt : t < fireAt timeout) :
    call net w network location timeout method input out =
      { err := r
        out := outAt t (attempt net w network location method input).wrote out
        returnedAt := t
        events := Ev.call network location timeout method input ::
          (attempt net w network location method input).events
        world := (attempt net w network location method input).world } := by
  unfold call
  simp only [hdone]
  rw [if_pos (Or.inl hlt)]

/-- When the timer fires before the goroutine sends (or the goroutine never sends),
`call` returns `Timeout`. -/
theorem call_of_not_done (net : Net σ) (w : σ) (network location : String)
    (timeout : Duration) (method : String) (input out : Value)
    (hnot : ∀ t r, (attempt net w network location method input).done = some (t, r) →
      fireAt timeout < t) :
    call net w network location timeout method input out =
      { err := Timeout
        out := outAt (fireAt timeout) (attempt net w network location method input).wrote out
        returnedAt := fireAt timeout
        events := Ev.call network location timeout method input ::
          (attempt net w network location method input).events
        world := (attempt net w network location method input).world } := by
  unfold call
  simp only
  split
  · rfl
  · rename_i t r hdone
    have hlt := hnot t r hdone
    rw [if_neg]
    rintro (h | ⟨h, -⟩) <;> omega

/-- `call` returns either what the goroutine sent, at the moment of the send, or
`Timeout`, at the moment the timer fires. -/
theorem call_err_cases (net : Net σ) (w : σ) (network location : String)
    (timeout : Duration) (method : String) (input out : Value) :
    (∃ t, (attempt net w network location method input).done =
        some (t, (call net w network location timeout method input out).err) ∧
      (call net w network location timeout method input out).returnedAt = t ∧
      (call net w network location timeout method input out).out =
        outAt t (attempt net w network location method input).wrote out) ∨
    ((call net w network location timeout method input out).err = Timeout ∧
      (call net w network location timeout method input out).returnedAt = fireAt timeout ∧
      (call net w network location timeout method input out).out =
        outAt (fireAt timeout) (attempt net w network location method input).wrote out) := by
  unfold call
  simp only
  split
  · exact Or.inr ⟨rfl, rfl, rfl⟩
  · rename_i t r hdone
    split
    · exact Or.inl ⟨t, hdone, rfl, rfl⟩
    · exact Or.inr ⟨rfl, rfl, rfl⟩

end Lemmas

/-- Whatever the goroutine sends on `res` is recorded in its trace. -/
theorem attempt_send_mem {σ : Type} (net : Net σ) (w : σ)
    (network location method : String) (input : Value) (t : Nat) (r : error)
    (h : (attempt net w network location method input).done = some (t, r)) :
    Ev.send r ∈ (attempt net w network location method input).events := by
  rcases attempt_shape net w network location method input with
    ⟨w1, hd⟩ | ⟨t1, e, w1, hd⟩ | ⟨t1, w1, w2, hd, hi⟩ | ⟨t1, w1, wire, wake, reply, err, w2, hd, hi⟩
  · rw [attempt_dial_never net w w1 network location method input hd] at h
    simp at h
  · rw [attempt_dial_failed net w w1 network location method input t1 e hd] at h ⊢
    simp at h
    simp [← h.2]
  · rw [attempt_invoke_never net w w1 w2 network location method input t1 hd hi] at h
    simp at h
  · rw [attempt_invoke_done net w w1 w2 network location method input t1 wire wake reply err
      hd hi] at h ⊢
    simp at h
    simp [← h.2]

/-! ## The bounded-latency call -/

/-- C1: for every outside world, network, address, method, input and timeout, when the
goroutine of `call` (dial, invoke, receive) sends its result at a moment `t` strictly
before the timer of duration `timeout` fires, `call` returns exactly that result, at
that moment: `nil` on success, the error of the dial when the dial failed, the error of
the invocation otherwise, each unchanged; and the value returned is not `Timeout`. -/
theorem call_returns_attempt_result {σ : Type} (net : Net σ) (w : σ)
    (network location : String) (timeout : Duration) (method : String)
    (input out : Value) (t : Nat) (r : error)
    (hdone : (attempt net w network location method input).done = some (t, r))
    (hlt : t < fireAt timeout) :
    (call net w network location timeout method input out).err = r ∧
    (call net w network location timeout method input out).err ≠ Timeout ∧
    (call net w network location timeout method input out).returnedAt = t ∧
    (∀ td e w1, net.dial w network location = (DialOutcome.failed td e, w1) →
      r = some (Err.net e)) ∧
    (∀ td w1 wire wake reply err w2,
      net.dial w network location = (DialOutcome.connected td, w1) →
      net.invoke w1 method input = (InvokeOutcome.done wire wake reply err, w2) →
      r = err.map Err.net) := by
  have hc := call_of_done_lt net w network location timeout method input out t r hdone hlt
  refine ⟨by rw [hc], ?_, by rw [hc], ?_, ?_⟩
  · rw [hc]
    exact attempt_done_ne_Timeout net w network location method input t r hdone
  · intro td e w1 hd
    rw [attempt_dial_failed net w w1 network location method input td e hd] at hdone
    simp at hdone
    exact hdone.2.symm
  · intro td w1 wire wake reply err w2 hd hi
    rw [attempt_invoke_done net w w1 w2 network location method input td wire wake reply err
      hd hi] at hdone
    simp at hdone
    exact hdone.2.symm

/-- C1 on a concrete run: a dial to a port where nobody listens is refused after 1000 ns,
well before the two seconds of the timeout, and `call` returns the dial error. -/
theorem call_returns_attempt_result_witness :
    (attempt served examplePeer "tcp" "127.0.0.1:9" "StateRPC.GetRole" (Value.str "")).done =
      some (1000, some (Err.net (NetErr.connect "connection refused"))) ∧
    1000 < fireAt 2000000000 ∧
    (call served examplePeer "tcp" "127.0.0.1:9" 2000000000 "StateRPC.GetRole"
      (Value.str "") (Value.str "")).err =
        some (Err.net (NetErr.connect "connection refused")) :=
  ⟨by decide, by decide,
    (call_returns_attempt_result served examplePeer "tcp" "127.0.0.1:9" 2000000000
      "StateRPC.GetRole" (Value.str "") (Value.str "") 1000
      (some (Err.net (NetErr.connect "connection refused"))) (by decide) (by decide)).1⟩

/-- C2: for every call whose goroutine has not sent a result when the timer of duration
`timeout` fires (it sends later, or never: the peer never answers), `call` returns exactly
`Timeout`, at the moment the timer fires.  What the goroutine produces later is sent on
`res` and dropped: it is not the value `call` returned. -/
theorem call_returns_Timeout {σ : Type} (net : Net σ) (w : σ)
    (network location : String) (timeout : Duration) (method : String) (input out : Value)
    (hnot : ∀ t r, (attempt net w network location method input).done = some (t, r) →
      fireAt timeout < t) :
    (call net w network location timeout method input out).err = Timeout ∧
    (call net w network location timeout method input out).returnedAt = fireAt timeout ∧
    (∀ t r, (attempt net w network location method input).done = some (t, r) →
      Ev.send r ∈ (call net w network location timeout method input out).events ∧
      (call net w network location timeout method input out).err ≠ r) := by
  have hc := call_of_not_done net w network location timeout method input out hnot
  refine ⟨by rw [hc], by rw [hc], ?_⟩
  intro t r hdone
  rw [hc]
  refine ⟨List.mem_cons_of_mem _
    (attempt_send_mem net w network location method input t r hdone), ?_⟩
  exact (attempt_done_ne_Timeout net w network location method input t r hdone).symm

/-- C2 on a concrete run: the answer arrives after 50 ns, the timeout is 10 ns. -/
theorem call_returns_Timeout_witness :
    (attempt (replying 50 0 (Value.bool true)) () "tcp" "h:1" "StateRPC.HasSynced"
      (Value.bool true)).done = some (50, none) ∧
    fireAt 10 < 50 ∧
    (call (replying 50 0 (Value.bool true)) () "tcp" "h:1" 10 "StateRPC.HasSynced"
      (Value.bool true) (Value.bool false)).err = Timeout :=
  ⟨by decide, by decide,
    (call_returns_Timeout (replying 50 0 (Value.bool true)) () "tcp" "h:1" 10
      "StateRPC.HasSynced" (Value.bool true) (Value.bool false)
      (fun t r h => by
        have h2 : (attempt (replying 50 0 (Value.bool true)) () "tcp" "h:1"
            "StateRPC.HasSynced" (Value.bool true)).done = some (50, none) := by decide
        rw [h2] at h
        cases h
        decide)).1⟩

/-- C3: for every remote handle, role string and outside world, `SetDBRole` returns
`NotSupported`, performs no operation at all (no call, no dial, no invocation: its trace
is empty) and leaves the outside world as it was. -/
theorem SetDBRole_not_supported {σ : Type} (c : remoteState) (net : Net σ) (w : σ)
    (role : String) :
    (c.SetDBRole net w role).err = NotSupported ∧
    (c.SetDBRole net w role).events = [] ∧
    (c.SetDBRole net w role).world = w :=
  ⟨rfl, rfl, rfl⟩

/-- C9: in every run of the goroutine of `call` there is exactly one dial, to the given
endpoint.  When the dial fails, the method is not invoked, nothing is closed and the dial
error is what the goroutine sends.  When the dial succeeds and the invocation returns, the
trace is dial, invoke, send, close: the connection is closed exactly once, after the
invocation has returned, whatever it returned.  In no run is there more than one close,
and none happens while the dial or the invocation has not returned.  The trace of the
goroutine does not depend on the timeout, so all of this holds whether or not `call` has
already returned `Timeout`. -/
theorem attempt_one_dial_one_close {σ : Type} (net : Net σ) (w : σ)
    (network location : String) (method : String) (input : Value) :
    (∀ (timeout : Duration) (out : Value),
      (call net w network location timeout method input out).events =
        Ev.call network location timeout method input ::
          (attempt net w network location method input).events) ∧
    (attempt net w network location method input).events.filter Ev.isDial =
      [Ev.dial network location] ∧
    ((attempt net w network location method input).events.filter Ev.isClose).length ≤ 1 ∧
    (∀ td e w1, net.dial w network location = (DialOutcome.failed td e, w1) →
      (attempt net w network location method input).events =
        [Ev.dial network location, Ev.send (some (Err.net e))] ∧
      (attempt net w network location method input).done = some (td, some (Err.net e))) ∧
    (∀ td w1 wire wake reply err w2,
      net.dial w network location = (DialOutcome.connected td, w1) →
      net.invoke w1 method input = (InvokeOutcome.done wire wake reply err, w2) →
      (attempt net w network location method input).events =
        [Ev.dial network location, Ev.invoke method input, Ev.send (err.map Err.net),
          Ev.close]) ∧
    ((attempt net w network location method input).done = none →
      (attempt net w network location method input).events.filter Ev.isClose = []) := by
  refine ⟨fun timeout out =>
    (call_events net w network location timeout method input out).1, ?_, ?_, ?_, ?_, ?_⟩
  · rcases attempt_shape net w network location method input with
      ⟨w1, hd⟩ | ⟨t1, e, w1, hd⟩ | ⟨t1, w1, w2, hd, hi⟩ |
      ⟨t1, w1, wire, wake, reply, err, w2, hd, hi⟩
    · rw [attempt_dial_never net w w1 network location method input hd]
      simp [Ev.isDial]
    · rw [attempt_dial_failed net w w1 network location method input t1 e hd]
      simp [Ev.isDial]
    · rw [attempt_invoke_never net w w1 w2 network location method input t1 hd hi]
      simp [Ev.isDial]
    · rw [attempt_invoke_done net w w1 w2 network location method input t1 wire wake reply
        err hd hi]
      simp [Ev.isDial]
  · rcases attempt_shape net w network location method input with
      ⟨w1, hd⟩ | ⟨t1, e, w1, hd⟩ | ⟨t1, w1, w2, hd, hi⟩ |
      ⟨t1, w1, wire, wake, reply, err, w2, hd, hi⟩
    · rw [attempt_dial_never net w w1 network location method input hd]
      simp [Ev.isClose]
    · rw [attempt_dial_failed net w w1 network location method input t1 e hd]
      simp [Ev.isClose]
    · rw [attempt_invoke_never net w w1 w2 network location method input t1 hd hi]
      simp [Ev.isClose]
    · rw [attempt_invoke_done net w w1 w2 network location method input t1 wire wake reply
        err hd hi]
      simp [Ev.isClose]
  · intro td e w1 hd
    rw [attempt_dial_failed net w w1 network location method input td e hd]
    exact ⟨rfl, rfl⟩
  · intro td w1 wire wake reply err w2 hd hi
    rw [attempt_invoke_done net w w1 w2 network location method input td wire wake reply err
      hd hi]
  · intro hnone
    rcases attempt_shape net w network location method input with
      ⟨w1, hd⟩ | ⟨t1, e, w1, hd⟩ | ⟨t1, w1, w2, hd, hi⟩ |
      ⟨t1, w1, wire, wake, reply, err, w2, hd, hi⟩
    · rw [attempt_dial_never net w w1 network location method input hd]
      simp [Ev.isClose]
    · rw [attempt_dial_failed net w w1 network location method input t1 e hd] at hnone
      simp at hnone
    · rw [attempt_invoke_never net w w1 w2 network location method input t1 hd hi]
      simp [Ev.isClose]
    · rw [attempt_invoke_done net w w1 w2 network location method input t1 wire wake reply
        err hd hi] at hnone
      simp at hnone

/-- C9 on a concrete run: the answer arrives after the timeout, `call` has returned
`Timeout`, and the goroutine still closes the connection, once, after the invocation. -/
theorem attempt_one_dial_one_close_witness :
    (call (replying 50 0 (Value.bool true)) () "tcp" "h:1" 10 "StateRPC.HasSynced"
      (Value.bool true) (Value.bool false)).err = Timeout ∧
    (attempt (replying 50 0 (Value.bool true)) () "tcp" "h:1" "StateRPC.HasSynced"
      (Value.bool true)).events =
        [Ev.dial "tcp" "h:1", Ev.invoke "StateRPC.HasSynced" (Value.bool true),
          Ev.send none, Ev.close] :=
  ⟨by decide,
    (attempt_one_dial_one_close (replying 50 0 (Value.bool true)) () "tcp" "h:1"
      "StateRPC.HasSynced" (Value.bool true)).2.2.2.2.1 0 () 50 0 (some (Value.bool true))
      none () rfl rfl⟩

/-! ## The readiness loop -/

/-- The goroutine of `call` records no `call` entry and no wait. -/
theorem attempt_events_kinds {σ : Type} (net : Net σ) (w : σ)
    (network location method : String) (input : Value) :
    (attempt net w network location method input).events.filter Ev.isCall = [] ∧
    (attempt net w network location method input).events.filter Ev.isWait = [] ∧
    (attempt net w network location method input).events.filter Ev.isDial =
      [Ev.dial network location] := by
  rcases attempt_shape net w network location method input with
    ⟨w1, hd⟩ | ⟨t1, e, w1, hd⟩ | ⟨t1, w1, w2, hd, hi⟩ | ⟨t1, w1, wire, wake, reply, err, w2, hd, hi⟩
  · rw [attempt_dial_never net w w1 network location method input hd]
    simp [Ev.isCall, Ev.isWait, Ev.isDial]
  · rw [attempt_dial_failed net w w1 network location method input t1 e hd]
    simp [Ev.isCall, Ev.isWait, Ev.isDial]
  · rw [attempt_invoke_never net w w1 w2 network location method input t1 hd hi]
    simp [Ev.isCall, Ev.isWait, Ev.isDial]
  · rw [attempt_invoke_done net w w1 w2 network location method input t1 wire wake reply err
      hd hi]
    simp [Ev.isCall, Ev.isWait, Ev.isDial]

/-- One `call` records exactly one `call` entry, carrying its arguments, exactly one dial
and no wait. -/
theorem call_events_kinds {σ : Type} (net : Net σ) (w : σ) (network location : String)
    (timeout : Duration) (method : String) (input out : Value) :
    (call net w network location timeout method input out).events.filter Ev.isCall =
      [Ev.call network location timeout method input] ∧
    (call net w network location timeout method input out).events.filter Ev.isWait = [] ∧
    (call net w network location timeout method input out).events.filter Ev.isDial =
      [Ev.dial network location] := by
  obtain ⟨h1, h2, h3⟩ := attempt_events_kinds net w network location method input
  rw [(call_events net w network location timeout method input out).1]
  simp [List.filter_cons, Ev.isCall, Ev.isWait, Ev.isDial, h1, h2, h3]

theorem Ready_zero {σ : Type} (c : remoteState) (net : Net σ) (w : σ) :
    c.Ready net 0 w = none := rfl

theorem Ready_succ_ok {σ : Type} (c : remoteState) (net : Net σ) (fuel : Nat) (w : σ)
    (h : (probe c net w).err = none) :
    c.Ready net (fuel + 1) w = some ((probe c net w).events, (probe c net w).world) := by
  unfold probe at h
  simp only [remoteState.Ready, h, probe]

theorem Ready_succ_fail {σ : Type} (c : remoteState) (net : Net σ) (fuel : Nat) (w : σ)
    (h : (probe c net w).err ≠ none) :
    c.Ready net (fuel + 1) w =
      (c.Ready net fuel (probe c net w).world).map
        (fun r => ((probe c net w).events ++ Ev.wait Second :: r.1, r.2)) := by
  unfold probe at h
  cases he : (c.call net w "StateRPC.Ready" Value.Nil Value.Nil).err with
  | none => exact absurd he h
  | some e =>
    simp only [remoteState.Ready, he, probe]
    cases c.Ready net fuel (c.call net w "StateRPC.Ready" Value.Nil Value.Nil).world with
    | none => rfl
    | some r => rfl

/-- While no probe has succeeded the loop is still running. -/
theorem Ready_running {σ : Type} (c : remoteState) (net : Net σ) :
    ∀ (n : Nat) (w : σ), (∀ i, i < n → (probe c net (worldAt c net i w)).err ≠ none) →
      ∀ fuel, fuel ≤ n → c.Ready net fuel w = none := by
  intro n
  induction n with
  | zero =>
    intro w _ fuel hf
    have : fuel = 0 := by omega
    subst this
    rfl
  | succ n ih =>
    intro w hfail fuel hf
    cases fuel with
    | zero => rfl
    | succ f =>
      have h0 : (probe c net w).err ≠ none := hfail 0 (by omega)
      rw [Ready_succ_fail c net f w h0]
      rw [ih (probe c net w).world (fun i hi => hfail (i + 1) (by omega)) f (by omega)]
      rfl

/-- The run of the loop whose first successful probe is probe number `n`. -/
theorem Ready_run {σ : Type} (c : remoteState) (net : Net σ) :
    ∀ (n : Nat) (w : σ), (∀ i, i < n → (probe c net (worldAt c net i w)).err ≠ none) →
      (probe c net (worldAt c net n w)).err = none →
      ∀ fuel, n < fuel → ∃ tr, c.Ready net fuel w = some (tr, worldAt c net (n + 1) w) ∧
        tr.filter (fun e => e.isCall || e.isWait) =
          alternating (Ev.call c.network c.location c.timeout "StateRPC.Ready" Value.Nil) n ∧
        tr.filter Ev.isCall = List.replicate (n + 1)
          (Ev.call c.network c.location c.timeout "StateRPC.Ready" Value.Nil) ∧
        tr.filter Ev.isWait = List.replicate n (Ev.wait Second) ∧
        tr.filter Ev.isDial = List.replicate (n + 1) (Ev.dial c.network c.location) := by
  intro n
  induction n with
  | zero =>
    intro w _ hok fuel hf
    obtain ⟨f, rfl⟩ : ∃ f, fuel = f + 1 := ⟨fuel - 1, by omega⟩
    have hok0 : (probe c net w).err = none := hok
    obtain ⟨k1, k2, k3⟩ := call_events_kinds net w c.network c.location c.timeout
      "StateRPC.Ready" Value.Nil Value.Nil
    refine ⟨(probe c net w).events, Ready_succ_ok c net f w hok0, ?_, k1, k2, k3⟩
    have hsplit : ∀ l : List Ev, l.filter Ev.isWait = [] →
        l.filter (fun e => e.isCall || e.isWait) = l.filter Ev.isCall := by
      intro l hl
      apply List.filter_congr
      intro e he
      have : e.isWait = false := by
        by_contra hne
        have hmem : e ∈ l.filter Ev.isWait := List.mem_filter.mpr ⟨he, by simpa using hne⟩
        rw [hl] at hmem
        exact absurd hmem (List.not_mem_nil e)
      simp [this]
    show (call net w c.network c.location c.timeout "StateRPC.Ready" Value.Nil
      Value.Nil).events.filter (fun e => e.isCall || e.isWait) = _
    rw [hsplit _ k2, k1]
    rfl
  | succ n ih =>
    intro w hfail hok fuel hf
    obtain ⟨f, rfl⟩ : ∃ f, fuel = f + 1 := ⟨fuel - 1, by omega⟩
    have h0 : (probe c net w).err ≠ none := hfail 0 (by omega)
    obtain ⟨tr, htr, a1, a2, a3, a4⟩ := ih (probe c net w).world
      (fun i hi => hfail (i + 1) (by omega)) hok f (by omega)
    obtain ⟨k1, k2, k3⟩ := call_events_kinds net w c.network c.location c.timeout
      "StateRPC.Ready" Value.Nil Value.Nil
    have hsplit : ∀ l : List Ev, l.filter Ev.isWait = [] →
        l.filter (fun e => e.isCall || e.isWait) = l.filter Ev.isCall := by
      intro l hl
      apply List.filter_congr
      intro e he
      have : e.isWait = false := by
        by_contra hne
        have hmem : e ∈ l.filter Ev.isWait := List.mem_filter.mpr ⟨he, by simpa using hne⟩
        rw [hl] at hmem
        exact absurd hmem (List.not_mem_nil e)
      simp [this]
    have k0 := hsplit _ k2
    rw [k1] at k0
    refine ⟨(probe c net w).events ++ Ev.wait Second :: tr, ?_, ?_, ?_, ?_, ?_⟩
    · rw [Ready_succ_fail c net f w h0, htr]
      rfl
    · show ((call net w c.network c.location c.timeout "StateRPC.Ready" Value.Nil
        Value.Nil).events ++ Ev.wait Second :: tr).filter (fun e => e.isCall || e.isWait) = _
      rw [List.filter_append, k0, List.filter_cons, a1]
      simp [Ev.isCall, Ev.isWait, alternating]
    · show ((call net w c.network c.location c.timeout "StateRPC.Ready" Value.Nil
        Value.Nil).events ++ Ev.wait Second :: tr).filter Ev.isCall = _
      rw [List.filter_append, k1, List.filter_cons, a2]
      simp [Ev.isCall, List.replicate_succ]
    · show ((call net w c.network c.location c.timeout "StateRPC.Ready" Value.Nil
        Value.Nil).events ++ Ev.wait Second :: tr).filter Ev.isWait = _
      rw [List.filter_append, k2, List.filter_cons, a3]
      simp [Ev.isWait, List.replicate_succ]
    · show ((call net w c.network c.location c.timeout "StateRPC.Ready" Value.Nil
        Value.Nil).events ++ Ev.wait Second :: tr).filter Ev.isDial = _
      rw [List.filter_append, k3, List.filter_cons, a4]
      simp [Ev.isDial, List.replicate_succ]

/-- C4: `Ready` on a remote handle returns only after a probe has succeeded.  Probe `i`
is the call `StateRPC.Ready` made in the world left by probe `i - 1`.  If probes
`0 .. n-1` return a non-nil error (of any kind) and probe `n` returns `nil`, then `Ready`
is still running after `n` iterations, and with any fuel above `n` it returns, having made
exactly `n + 1` calls, all of method `StateRPC.Ready` with the network, location and
timeout of the handle, and exactly `n` waits, all of one second, one after each failed
probe and none after the successful one.  If no probe ever succeeds, `Ready` does not
return, whatever the fuel. -/
theorem Ready_returns_after_first_success {σ : Type} (c : remoteState) (net : Net σ)
    (w : σ) :
    (∀ n, (∀ i, i < n → (probe c net (worldAt c net i w)).err ≠ none) →
      (probe c net (worldAt c net n w)).err = none →
      (∀ fuel, fuel ≤ n → c.Ready net fuel w = none) ∧
      (∀ fuel, n < fuel → ∃ tr, c.Ready net fuel w = some (tr, worldAt c net (n + 1) w) ∧
        tr.filter (fun e => e.isCall || e.isWait) =
          alternating (Ev.call c.network c.location c.timeout "StateRPC.Ready" Value.Nil) n ∧
        tr.filter Ev.isCall = List.replicate (n + 1)
          (Ev.call c.network c.location c.timeout "StateRPC.Ready" Value.Nil) ∧
        (tr.filter Ev.isCall).length = n + 1 ∧
        tr.filter Ev.isWait = List.replicate n (Ev.wait Second) ∧
        (tr.filter Ev.isWait).length = n)) ∧
    ((∀ i, (probe c net (worldAt c net i w)).err ≠ none) →
      ∀ fuel, c.Ready net fuel w = none) := by
  constructor
  · intro n hfail hok
    refine ⟨Ready_running c net n w hfail, ?_⟩
    intro fuel hf
    obtain ⟨tr, h1, h2, h3, h4, _⟩ := Ready_run c net n w hfail hok fuel hf
    exact ⟨tr, h1, h2, h3, by rw [h3, List.length_replicate], h4,
      by rw [h4, List.length_replicate]⟩
  · intro hfail fuel
    exact Ready_running c net fuel w (fun i _ => hfail i) fuel (Nat.le_refl fuel)

/-- C4 on concrete runs.  In the world `moody` the first probe times out, the second is
refused, the third gets an error from the peer and the fourth succeeds: `Ready` makes four
calls and three waits.  In the world `silent` no probe succeeds and `Ready` is still
running after 50 iterations. -/
theorem Ready_returns_after_first_success_witness :
    (probe exampleRemote moody (worldAt exampleRemote moody 0 0)).err = Timeout ∧
    (probe exampleRemote moody (worldAt exampleRemote moody 1 0)).err =
      some (Err.net (NetErr.connect "connection refused")) ∧
    (probe exampleRemote moody (worldAt exampleRemote moody 2 0)).err =
      some (Err.net (NetErr.remote "not yet")) ∧
    (probe exampleRemote moody (worldAt exampleRemote moody 3 0)).err = none ∧
    (∃ tr, exampleRemote.Ready moody 4 0 = some (tr, worldAt exampleRemote moody 4 0) ∧
      (tr.filter Ev.isCall).length = 4 ∧ (tr.filter Ev.isWait).length = 3) ∧
    exampleRemote.Ready moody 3 0 = none ∧
    exampleRemote.Ready silent 50 () = none := by
  have hm := (Ready_returns_after_first_success exampleRemote moody 0).1 3
    (by decide) (by decide)
  have hs := (Ready_returns_after_first_success exampleRemote silent ()).2
    (fun i => by
      have hw : ∀ k, worldAt exampleRemote silent k () = () := fun _ => rfl
      rw [hw i]
      decide)
  refine ⟨by decide, by decide, by decide, by decide, ?_, hm.1 3 (Nat.le_refl 3), hs 50⟩
  obtain ⟨tr, h1, _, _, h3, _, h5⟩ := hm.2 4 (by decide)
  exact ⟨tr, h1, h3, h5⟩

/-! ## The handlers -/

/-- C8: every handler returns `nil` and touches at most one field of the state record.
For every wrapper, every input and every prior content of the reply, `GetDataDir`,
`GetRole`, `GetDBRole` and `HasSynced` reply with `DataDir`, `Role`, `DBRole` and `synced`,
do not depend on their input and leave the record unchanged; `Ready` leaves the record
and its reply unchanged; `SetSynced b` leaves its reply unchanged and yields the record
with `synced = b` and `DataDir`, `Role`, `DBRole` as before. -/
theorem handlers_frame (wrap : StateRPC) :
    (∀ arg reply, wrap.GetDataDir arg reply =
      { wrap := wrap, reply := wrap.state.DataDir, err := none }) ∧
    (∀ arg reply, wrap.GetRole arg reply =
      { wrap := wrap, reply := wrap.state.Role, err := none }) ∧
    (∀ arg reply, wrap.GetDBRole arg reply =
      { wrap := wrap, reply := wrap.state.DBRole, err := none }) ∧
    (∀ arg reply, wrap.HasSynced arg reply =
      { wrap := wrap, reply := wrap.state.synced, err := none }) ∧
    (∀ a b, wrap.Ready a b = { wrap := wrap, reply := b, err := none }) ∧
    (∀ b out, (wrap.SetSynced b out).err = none ∧
      (wrap.SetSynced b out).reply = out ∧
      (wrap.SetSynced b out).wrap.state.synced = b ∧
      (wrap.SetSynced b out).wrap.state.DataDir = wrap.state.DataDir ∧
      (wrap.SetSynced b out).wrap.state.Role = wrap.state.Role ∧
      (wrap.SetSynced b out).wrap.state.DBRole = wrap.state.DBRole ∧
      (wrap.SetSynced b out).wrap.state = { wrap.state with synced := b }) :=
  ⟨fun _ _ => rfl, fun _ _ => rfl, fun _ _ => rfl, fun _ _ => rfl, fun _ _ => rfl,
    fun _ _ => ⟨rfl, rfl, rfl, rfl, rfl, rfl, rfl⟩⟩

/-! ## The remote operations -/

/-- A dial of a handle to the endpoint of a responsive peer connects. -/
theorem served_dial (c : remoteState) (p : Peer) (hn : c.network = p.network)
    (hl : c.location = p.location) :
    served.dial p c.network c.location = (DialOutcome.connected p.dialTime, p) := by
  simp [served, hn, hl]

/-- An answer of a responsive peer that arrives in time is what `call` returns. -/
theorem call_served_in_time (c : remoteState) (p : Peer) (method : String)
    (input out : Value) (reply : Option Value) (err : Option NetErr) (wrap : StateRPC)
    (hn : c.network = p.network) (hl : c.location = p.location)
    (ht : p.dialTime + p.wire + p.wake < fireAt c.timeout)
    (hd : dispatch p.wrap method input = (reply, err, wrap)) :
    (c.call served p method input out).err = err.map Err.net ∧
    (c.call served p method input out).out =
      outAt (p.dialTime + p.wire + p.wake) (reply.map (fun v => (p.dialTime + p.wire, v))) out ∧
    (c.call served p method input out).world = { p with wrap := wrap } := by
  have hi : served.invoke p method input =
      (InvokeOutcome.done p.wire p.wake reply err, { p with wrap := wrap }) := by
    simp [served, hd]
  have ha := attempt_invoke_done served p p { p with wrap := wrap } c.network c.location
    method input p.dialTime p.wire p.wake reply err (served_dial c p hn hl) hi
  have hc := call_of_done_lt served p c.network c.location c.timeout method input out
    (p.dialTime + p.wire + p.wake) (err.map Err.net) (by rw [ha]) ht
  unfold remoteState.call
  rw [hc, ha]
  exact ⟨rfl, rfl, rfl⟩

/-- A remote `SetSynced x` on a responsive peer, answered in time, returns `nil` and
leaves the peer with the record written by the handler. -/
theorem SetSynced_served_in_time (c : remoteState) (p : Peer) (x : Bool)
    (hn : c.network = p.network) (hl : c.location = p.location)
    (ht : p.dialTime + p.wire + p.wake < fireAt c.timeout) :
    (c.SetSynced served p x).err = none ∧
    (c.SetSynced served p x).world.wrap = (p.wrap.SetSynced x false).wrap := by
  have hd1 : dispatch p.wrap "StateRPC.SetSynced" (Value.bool x) =
      (some (Value.bool false), none, (p.wrap.SetSynced x false).wrap) := by
    simp [dispatch, answer, StateRPC.SetSynced]
  obtain ⟨e1, _, w1⟩ := call_served_in_time c p "StateRPC.SetSynced" (Value.bool x)
    (Value.bool false) _ _ _ hn hl ht hd1
  constructor
  · show (c.call served p "StateRPC.SetSynced" (Value.bool x) (Value.bool false)).err = none
    rw [e1]
    rfl
  · show (c.call served p "StateRPC.SetSynced" (Value.bool x) (Value.bool false)).world.wrap = _
    rw [w1]

/-- A remote `HasSynced` on a responsive peer, answered in time, returns the flag of the
record of the peer and `nil`. -/
theorem HasSynced_served_in_time (c : remoteState) (p : Peer)
    (hn : c.network = p.network) (hl : c.location = p.location)
    (ht : p.dialTime + p.wire + p.wake < fireAt c.timeout) :
    (c.HasSynced served p).val = p.wrap.state.synced ∧ (c.HasSynced served p).err = none := by
  have hd2 : dispatch p.wrap "StateRPC.HasSynced" (Value.bool true) =
      (some (Value.bool p.wrap.state.synced), none, p.wrap) := by
    simp [dispatch, answer, StateRPC.HasSynced]
  obtain ⟨e2, o2, _⟩ := call_served_in_time c p "StateRPC.HasSynced" (Value.bool true)
    (Value.bool false) _ _ _ hn hl ht hd2
  constructor
  · show (c.call served p "StateRPC.HasSynced" (Value.bool true)
      (Value.bool false)).out.asBool = _
    rw [o2]
    simp [outAt, Value.asBool]
  · show (c.call served p "StateRPC.HasSynced" (Value.bool true) (Value.bool false)).err = none
    rw [e2]
    rfl

/-- C5: the synced flag round-trips.  For every wrapper and boolean `x`, the `SetSynced`
handler with `x` followed by the `HasSynced` handler, with any input, replies `x`, and
both return `nil`.  Hence for a handle on a responsive peer: a remote `SetSynced x` whose
answer arrives before the timeout returns `nil`, and a following remote `HasSynced` that
meets the record it left (no write in between) and whose answer arrives before the
timeout returns `(x, nil)`. -/
theorem SetSynced_HasSynced_roundtrip :
    (∀ (wrap : StateRPC) (x out arg reply : Bool),
      ((wrap.SetSynced x out).wrap.HasSynced arg reply).reply = x ∧
      (wrap.SetSynced x out).err = none ∧
      ((wrap.SetSynced x out).wrap.HasSynced arg reply).err = none) ∧
    (∀ (c : remoteState) (p p2 : Peer) (x : Bool),
      c.network = p.network → c.location = p.location →
      p.dialTime + p.wire + p.wake < fireAt c.timeout →
      p2.wrap = (c.SetSynced served p x).world.wrap →
      c.network = p2.network → c.location = p2.location →
      p2.dialTime + p2.wire + p2.wake < fireAt c.timeout →
      (c.SetSynced served p x).err = none ∧
      (c.HasSynced served p2).val = x ∧
      (c.HasSynced served p2).err = none) := by
  refine ⟨fun wrap x out arg reply => ⟨rfl, rfl, rfl⟩, ?_⟩
  intro c p p2 x hn hl ht hw hn2 hl2 ht2
  obtain ⟨e1, w1⟩ := SetSynced_served_in_time c p x hn hl ht
  obtain ⟨v2, e2⟩ := HasSynced_served_in_time c p2 hn2 hl2 ht2
  refine ⟨e1, ?_, e2⟩
  rw [v2, hw, w1]
  rfl

/-- C5 on a concrete run: against `examplePeer`, whose record has `synced = false`,
`SetSynced true` followed by `HasSynced` returns `(true, nil)`. -/
theorem SetSynced_HasSynced_roundtrip_witness :
    exampleState.synced = false ∧
    (exampleRemote.SetSynced served examplePeer true).err = none ∧
    (exampleRemote.HasSynced served
      (exampleRemote.SetSynced served examplePeer true).world).val = true ∧
    (exampleRemote.HasSynced served
      (exampleRemote.SetSynced served examplePeer true).world).err = none :=
  ⟨rfl,
    SetSynced_HasSynced_roundtrip.2 exampleRemote examplePeer
      (exampleRemote.SetSynced served examplePeer true).world true
      (by decide) (by decide) (by decide) rfl (by decide) (by decide) (by decide)⟩

theorem isSingleCall_call {σ : Type} (net : Net σ) (w : σ) (network location : String)
    (timeout : Duration) (method : String) (input out : Value) :
    isSingleCall (call net w network location timeout method input out).err
      (call net w network location timeout method input out).events
      (call net w network location timeout method input out).world
      (call net w network location timeout method input out)
      (Ev.call network location timeout method input) := by
  obtain ⟨k1, _, k3⟩ := call_events_kinds net w network location timeout method input out
  exact ⟨rfl, rfl, rfl, k1, by rw [k3]; rfl⟩

/-- C6: for a handle built by `NewRemoteState network location timeout`, each of
`SetSynced`, `HasSynced`, `GetDataDir`, `GetRole` and `GetDBRole` consists of exactly one
`call`, made with exactly that network, location and timeout and with the method name
`StateRPC.SetSynced`, `StateRPC.HasSynced`, `StateRPC.GetDataDir`, `StateRPC.GetRole`,
`StateRPC.GetDBRole` respectively; it returns the error of that call unchanged and does
nothing else (one `call` entry, one dial: no retry). -/
theorem remote_ops_single_call {σ : Type} (net : Net σ) (w : σ)
    (network location : String) (timeout : Duration) (x : Bool) :
    isSingleCall ((NewRemoteState network location timeout).SetSynced net w x).err
      ((NewRemoteState network location timeout).SetSynced net w x).events
      ((NewRemoteState network location timeout).SetSynced net w x).world
      (call net w network location timeout "StateRPC.SetSynced" (Value.bool x)
        (Value.bool false))
      (Ev.call network location timeout "StateRPC.SetSynced" (Value.bool x)) ∧
    isSingleCall ((NewRemoteState network location timeout).HasSynced net w).err
      ((NewRemoteState network location timeout).HasSynced net w).events
      ((NewRemoteState network location timeout).HasSynced net w).world
      (call net w network location timeout "StateRPC.HasSynced" (Value.bool true)
        (Value.bool false))
      (Ev.call network location timeout "StateRPC.HasSynced" (Value.bool true)) ∧
    isSingleCall ((NewRemoteState network location timeout).GetDataDir net w).err
      ((NewRemoteState network location timeout).GetDataDir net w).events
      ((NewRemoteState network location timeout).GetDataDir net w).world
      (call net w network location timeout "StateRPC.GetDataDir" (Value.str "")
        (Value.str ""))
      (Ev.call network location timeout "StateRPC.GetDataDir" (Value.str "")) ∧
    isSingleCall ((NewRemoteState network location timeout).GetRole net w).err
      ((NewRemoteState network location timeout).GetRole net w).events
      ((NewRemoteState network location timeout).GetRole net w).world
      (call net w network location timeout "StateRPC.GetRole" (Value.str "")
        (Value.str ""))
      (Ev.call network location timeout "StateRPC.GetRole" (Value.str "")) ∧
    isSingleCall ((NewRemoteState network location timeout).GetDBRole net w).err
      ((NewRemoteState network location timeout).GetDBRole net w).events
      ((NewRemoteState network location timeout).GetDBRole net w).world
      (call net w network location timeout "StateRPC.GetDBRole" (Value.str "")
        (Value.str ""))
      (Ev.call network location timeout "StateRPC.GetDBRole" (Value.str "")) :=
  ⟨isSingleCall_call net w network location timeout _ _ _,
    isSingleCall_call net w network location timeout _ _ _,
    isSingleCall_call net w network location timeout _ _ _,
    isSingleCall_call net w network location timeout _ _ _,
    isSingleCall_call net w network location timeout _ _ _⟩

/-- C7 fails as stated: against `examplePeer`, the input recorded at the entry of the
call of `HasSynced` is the boolean `true` and the input of the calls of `GetDataDir`,
`GetRole` and `GetDBRole` is the empty string; none of them is `Nil`. -/
theorem getters_pass_non_Nil_input :
    ¬ (∀ n l t m i, Ev.call n l t m i ∈ (exampleRemote.HasSynced served examplePeer).events →
      i = Value.Nil) ∧
    ¬ (∀ n l t m i, Ev.call n l t m i ∈ (exampleRemote.GetDataDir served examplePeer).events →
      i = Value.Nil) ∧
    ¬ (∀ n l t m i, Ev.call n l t m i ∈ (exampleRemote.GetRole served examplePeer).events →
      i = Value.Nil) ∧
    ¬ (∀ n l t m i, Ev.call n l t m i ∈ (exampleRemote.GetDBRole served examplePeer).events →
      i = Value.Nil) := by
  refine ⟨fun h => ?_, fun h => ?_, fun h => ?_, fun h => ?_⟩
  · exact absurd (h "tcp" "127.0.0.1:4400" 2000000000 "StateRPC.HasSynced" (Value.bool true)
      (by decide)) (by decide)
  · exact absurd (h "tcp" "127.0.0.1:4400" 2000000000 "StateRPC.GetDataDir" (Value.str "")
      (by decide)) (by decide)
  · exact absurd (h "tcp" "127.0.0.1:4400" 2000000000 "StateRPC.GetRole" (Value.str "")
      (by decide)) (by decide)
  · exact absurd (h "tcp" "127.0.0.1:4400" 2000000000 "StateRPC.GetDBRole" (Value.str "")
      (by decide)) (by decide)

/-- C7 as amended: of the remote operations only the probe of `Ready` passes `Nil` as the
input of its call.  `HasSynced` passes the boolean `true`; `GetDataDir`, `GetRole` and
`GetDBRole` pass the empty string.  The matching handlers take a bool (`HasSynced`) and a
string (`GetDataDir`, `GetRole`, `GetDBRole`) as input, which they ignore, and the
registered service accepts exactly these inputs. -/
theorem remote_getters_input {σ : Type} (c : remoteState) (net : Net σ) (w : σ) :
    (probe c net w).events.filter Ev.isCall =
      [Ev.call c.network c.location c.timeout "StateRPC.Ready" Value.Nil] ∧
    (c.HasSynced net w).events.filter Ev.isCall =
      [Ev.call c.network c.location c.timeout "StateRPC.HasSynced" (Value.bool true)] ∧
    (c.GetDataDir net w).events.filter Ev.isCall =
      [Ev.call c.network c.location c.timeout "StateRPC.GetDataDir" (Value.str "")] ∧
    (c.GetRole net w).events.filter Ev.isCall =
      [Ev.call c.network c.location c.timeout "StateRPC.GetRole" (Value.str "")] ∧
    (c.GetDBRole net w).events.filter Ev.isCall =
      [Ev.call c.network c.location c.timeout "StateRPC.GetDBRole" (Value.str "")] ∧
    (∀ (wrap : StateRPC) (arg1 arg2 : Bool) (reply : Bool),
      wrap.HasSynced arg1 reply = wrap.HasSynced arg2 reply) ∧
    (∀ (wrap : StateRPC) (arg1 arg2 : String) (reply : String),
      wrap.GetDataDir arg1 reply = wrap.GetDataDir arg2 reply ∧
      wrap.GetRole arg1 reply = wrap.GetRole arg2 reply ∧
      wrap.GetDBRole arg1 reply = wrap.GetDBRole arg2 reply) ∧
    (∀ wrap : StateRPC,
      dispatch wrap "StateRPC.HasSynced" (Value.bool true) =
        (some (Value.bool wrap.state.synced), none, wrap) ∧
      dispatch wrap "StateRPC.GetDataDir" (Value.str "") =
        (some (Value.str wrap.state.DataDir), none, wrap) ∧
      dispatch wrap "StateRPC.GetRole" (Value.str "") =
        (some (Value.str wrap.state.Role), none, wrap) ∧
      dispatch wrap "StateRPC.GetDBRole" (Value.str "") =
        (some (Value.str wrap.state.DBRole), none, wrap)) := by
  refine ⟨(call_events_kinds net w c.network c.location c.timeout _ _ _).1,
    (call_events_kinds net w c.network c.location c.timeout _ _ _).1,
    (call_events_kinds net w c.network c.location c.timeout _ _ _).1,
    (call_events_kinds net w c.network c.location c.timeout _ _ _).1,
    (call_events_kinds net w c.network c.location c.timeout _ _ _).1,
    fun _ _ _ _ => rfl, fun _ _ _ _ => ⟨rfl, rfl, rfl⟩, fun wrap => ⟨?_, ?_, ?_, ?_⟩⟩
  · simp [dispatch, answer, StateRPC.HasSynced]
  · simp [dispatch, answer, StateRPC.GetDataDir]
  · simp [dispatch, answer, StateRPC.GetRole]
  · simp [dispatch, answer, StateRPC.GetDBRole]

/-! ## Values returned next to an error -/

/-- A call that returns while nothing has been written through `out` leaves the
variable as it was. -/
theorem call_out_unwritten {σ : Type} (c : remoteState) (net : Net σ) (w : σ)
    (method : String) (input out : Value) (h : failsUnwritten c net w method input out) :
    (c.call net w method input out).out = out := by
  obtain ⟨_, hw⟩ := h
  unfold remoteState.call at hw ⊢
  have hout : ∀ now, (attempt net w c.network c.location method input).wroteBy now = false →
      outAt now (attempt net w c.network c.location method input).wrote out = out := by
    intro now hb
    unfold Attempt.wroteBy at hb
    unfold outAt
    cases hwr : (attempt net w c.network c.location method input).wrote with
    | none => rfl
    | some tv =>
      obtain ⟨t, v⟩ := tv
      rw [hwr] at hb
      simp at hb
      simp
      omega
  rcases call_err_cases net w c.network c.location c.timeout method input out with
    ⟨t, _, hr, ho⟩ | ⟨_, hr, ho⟩
  · rw [ho]
    rw [hr] at hw
    exact hout t hw
  · rw [ho]
    rw [hr] at hw
    exact hout _ hw

/-- C10: whenever the call under a remote getter fails and has not written its output
when it returns, `HasSynced` returns `(false, err)` and `GetDataDir`, `GetRole` and
`GetDBRole` return `("", err)`, with `err` the non-nil error of the call: the value next
to the error is the zero value of its type.  The call fails without having written its
output in each of these cases, for every method, input and output variable: the dial
fails; the dial connects and the invocation returns an error without a reply; the call
returns `Timeout` and a reply, if any, is read only after the timer has fired. -/
theorem getters_zero_value_on_failure {σ : Type} (c : remoteState) (net : Net σ) (w : σ) :
    (failsUnwritten c net w "StateRPC.HasSynced" (Value.bool true) (Value.bool false) →
      (c.HasSynced net w).val = false ∧ (c.HasSynced net w).err ≠ none ∧
      (c.HasSynced net w).err =
        (c.call net w "StateRPC.HasSynced" (Value.bool true) (Value.bool false)).err) ∧
    (failsUnwritten c net w "StateRPC.GetDataDir" (Value.str "") (Value.str "") →
      (c.GetDataDir net w).val = "" ∧ (c.GetDataDir net w).err ≠ none ∧
      (c.GetDataDir net w).err =
        (c.call net w "StateRPC.GetDataDir" (Value.str "") (Value.str "")).err) ∧
    (failsUnwritten c net w "StateRPC.GetRole" (Value.str "") (Value.str "") →
      (c.GetRole net w).val = "" ∧ (c.GetRole net w).err ≠ none ∧
      (c.GetRole net w).err =
        (c.call net w "StateRPC.GetRole" (Value.str "") (Value.str "")).err) ∧
    (failsUnwritten c net w "StateRPC.GetDBRole" (Value.str "") (Value.str "") →
      (c.GetDBRole net w).val = "" ∧ (c.GetDBRole net w).err ≠ none ∧
      (c.GetDBRole net w).err =
        (c.call net w "StateRPC.GetDBRole" (Value.str "") (Value.str "")).err) ∧
    (∀ method input out td e w1,
      net.dial w c.network c.location = (DialOutcome.failed td e, w1) →
      failsUnwritten c net w method input out) ∧
    (∀ method input out td w1 wire wake e w2,
      net.dial w c.network c.location = (DialOutcome.connected td, w1) →
      net.invoke w1 method input = (InvokeOutcome.done wire wake none (some e), w2) →
      failsUnwritten c net w method input out) ∧
    (∀ method input out,
      (c.call net w method input out).err = Timeout →
      (∀ tw v, (attempt net w c.network c.location method input).wrote = some (tw, v) →
        fireAt c.timeout < tw) →
      failsUnwritten c net w method input out) := by
  refine ⟨fun h => ?_, fun h => ?_, fun h => ?_, fun h => ?_, ?_, ?_, ?_⟩
  · refine ⟨?_, h.1, rfl⟩
    show (c.call net w "StateRPC.HasSynced" (Value.bool true) (Value.bool false)).out.asBool
      = false
    rw [call_out_unwritten c net w _ _ _ h]
    rfl
  · refine ⟨?_, h.1, rfl⟩
    show (c.call net w "StateRPC.GetDataDir" (Value.str "") (Value.str "")).out.asStr = ""
    rw [call_out_unwritten c net w _ _ _ h]
    rfl
  · refine ⟨?_, h.1, rfl⟩
    show (c.call net w "StateRPC.GetRole" (Value.str "") (Value.str "")).out.asStr = ""
    rw [call_out_unwritten c net w _ _ _ h]
    rfl
  · refine ⟨?_, h.1, rfl⟩
    show (c.call net w "StateRPC.GetDBRole" (Value.str "") (Value.str "")).out.asStr = ""
    rw [call_out_unwritten c net w _ _ _ h]
    rfl
  · intro method input out td e w1 hd
    have ha := attempt_dial_failed net w w1 c.network c.location method input td e hd
    refine ⟨?_, ?_⟩
    · unfold remoteState.call
      rcases call_err_cases net w c.network c.location c.timeout method input out with
        ⟨t, hdone, _, _⟩ | ⟨he, _, _⟩
      · rw [ha] at hdone
        simp at hdone
        rw [← hdone.2]
        simp
      · rw [he]
        simp [Timeout]
    · rw [ha]
      rfl
  · intro method input out td w1 wire wake e w2 hd hi
    have ha := attempt_invoke_done net w w1 w2 c.network c.location method input td wire wake
      none (some e) hd hi
    refine ⟨?_, ?_⟩
    · unfold remoteState.call
      rcases call_err_cases net w c.network c.location c.timeout method input out with
        ⟨t, hdone, _, _⟩ | ⟨he, _, _⟩
      · rw [ha] at hdone
        simp at hdone
        rw [← hdone.2]
        simp
      · rw [he]
        simp [Timeout]
    · rw [ha]
      rfl
  · intro method input out he hlate
    refine ⟨by rw [he]; simp [Timeout], ?_⟩
    unfold remoteState.call at he ⊢
    rcases call_err_cases net w c.network c.location c.timeout method input out with
      ⟨t, hdone, _, _⟩ | ⟨_, hr, _⟩
    · exact absurd he
        (attempt_done_ne_Timeout net w c.network c.location method input t _ hdone)
    · rw [hr]
      unfold Attempt.wroteBy
      cases hwr : (attempt net w c.network c.location method input).wrote with
      | none => rfl
      | some tv =>
        obtain ⟨tw, v⟩ := tv
        have := hlate tw v hwr
        simp
        omega

/-- C10 on a concrete run: a handle that points at a port where nobody listens.  The
dial is refused, and `GetRole` returns the empty string next to the dial error. -/
theorem getters_zero_value_on_failure_witness :
    failsUnwritten (NewRemoteState "tcp" "127.0.0.1:9" 200000000) served examplePeer
      "StateRPC.GetRole" (Value.str "") (Value.str "") ∧
    ((NewRemoteState "tcp" "127.0.0.1:9" 200000000).GetRole served examplePeer).val = "" ∧
    ((NewRemoteState "tcp" "127.0.0.1:9" 200000000).GetRole served examplePeer).err =
      some (Err.net (NetErr.connect "connection refused")) := by
  have hf : failsUnwritten (NewRemoteState "tcp" "127.0.0.1:9" 200000000) served examplePeer
      "StateRPC.GetRole" (Value.str "") (Value.str "") :=
    ⟨by decide, by decide⟩
  have h := (getters_zero_value_on_failure (NewRemoteState "tcp" "127.0.0.1:9" 200000000)
    served examplePeer).2.2.1 hf
  exact ⟨hf, h.1, by decide⟩

/-- A value that is not the zero value can stand next to `Timeout` once the output has
been written: when the reply has been read (after 5 ns) but `client.Call` has not yet returned (15 ns)
at the moment the timer fires (8 ns), `HasSynced` returns `(true, Timeout)`. -/
theorem HasSynced_reply_read_before_Timeout :
    ((NewRemoteState "tcp" "h:1" 8).HasSynced (replying 5 10 (Value.bool true)) ()).val
      = true ∧
    ((NewRemoteState "tcp" "h:1" 8).HasSynced (replying 5 10 (Value.bool true)) ()).err
      = Timeout := by
  decide

end Yoke
